import Mathlib

/-
Verification development for the blip MySQL monitor.

This file gives a shallow embedding, in Lean 4, of the parts of the
repository needed to settle the frozen claims:

  * the event-name constants of the `event` package;
  * the collector registry (`metrics` package: `Register`, `Make`) and the
    built-in collector factory (`factory.Make`, `builtinCollectors`);
  * the `var.global` collector (`metrics/var/global.go`): `Prepare`,
    `prepareLevel`, `validateMetricNames`, the three sources
    (select / pfs / show) with their query builders, `Collect` and the
    row-parsing collect functions.

Go-specific semantics are made explicit:

  * a Go `map[string]T` read of a missing key yields T's zero value, so maps
    are embedded as total functions `String → T` defaulting to the zero value
    (`""` for strings, `[]` for slices), updated pointwise;
  * Go functions that can return an error or abort the process are embedded
    with the `GoRes` outcome type (`ok` / `err` / `panicked`); a panic
    (for example a slice index out of range) propagates through callers;
  * the `*sql.DB` handle is embedded as an oracle from query text to either
    an error or a list of rows (a row is a list of column strings;
    `rows.Scan` succeeds exactly when the column count matches), and every
    function that issues queries also returns the list of query texts it
    issued, so that "issues no query" is a provable statement;
  * Go map iteration order over `plan.Levels` is unspecified, so a plan's
    levels are embedded as a list fixing one iteration order.
-/

/-! ## Go map embedding -/

/-- Pointwise update of a total map, embedding a Go map assignment
`m[k] = v`. Reads of other keys are unchanged. -/
def upd {α : Type} (f : String → α) (k : String) (v : α) : String → α :=
  fun x => if x = k then v else f x

theorem upd_self {α : Type} (f : String → α) (k : String) (v : α) :
    upd f k v k = v := by
  simp [upd]

theorem upd_ne {α : Type} (f : String → α) (k : String) (v : α) (x : String)
    (h : x ≠ k) : upd f k v x = f x := by
  simp [upd, h]

/-! ## Go outcomes and the database oracle -/

/-- Outcome of a Go call: normal return, returned `error`, or a runtime
panic that unwinds through the caller. -/
inductive GoRes (α : Type) where
  | ok : α → GoRes α
  | err : String → GoRes α
  | panicked : String → GoRes α
deriving DecidableEq

/-- Discard the value of an outcome, keeping errors and panics
(embeds Go's `_, err := f(...)`). -/
def GoRes.ignore {α : Type} : GoRes α → GoRes Unit
  | .ok _ => .ok ()
  | .err e => .err e
  | .panicked m => .panicked m

/-- One result-set row: the column values as strings. -/
abbrev Row := List String

/-- The `*sql.DB` handle, embedded as an oracle: for a query text, either a
driver error or the rows of the result set. -/
abbrev DB := String → Except String (List Row)

deriving instance DecidableEq for Except

/-! ## blip package: metric model (src/unnamed/part_001) -/

def UNKNOWN : Nat := 0
def COUNTER : Nat := 1
def GAUGE : Nat := 2
def BOOL : Nat := 3
def EVENT : Nat := 4

/-- blip.MetricValue. The `var.global` collector never sets the optional
`Group`/`Meta` maps, so they are omitted here. Values are embedded as
rationals (`strconv.ParseFloat` results on the plain decimal strings the
claims exercise are exact). -/
structure MetricValue where
  name : String
  value : Rat
  type : Nat
deriving DecidableEq

/-! ## event package constants (src/unnamed/part_000) -/

def CHANGE_PLAN : String := "change-plan"
def CHANGE_PLAN_ERROR : String := "change-plan-error"
def CHANGE_PLAN_SUCCESS : String := "change-plan-success"
def COLLECTOR_ERROR : String := "collector-error"
def COLLECTOR_PANIC : String := "collector-panic"
def ENGINE_COLLECT_ERROR : String := "engine-collect-error"
def ENGINE_PREPARE : String := "engine-prepare"
def ENGINE_PREPARE_ERROR : String := "engine-prepare-error"
def ENGINE_PREPARE_SUCCESS : String := "engine-prepare-success"
def LPC_BLOCKED : String := "lpc-blocked"
def LPC_PANIC : String := "lpc-panic"
def LPC_PAUSED : String := "lpc-paused"
def LPC_RUNNING : String := "lpc-running"
def MONITOR_CONNECTED : String := "connected"
def MONITOR_CONNECTING : String := "connecting"
def MONITOR_ERROR : String := "monitor-error"
def MONITOR_PANIC : String := "monitor-panic"
def MONITOR_STARTED : String := "monitor-started"
def MONITOR_STOPPED : String := "monitor-stopped"
def SINK_SEND_ERROR : String := "sink-send-error"
def STATE_CHANGE_ABORT : String := "state-change-abort"
def STATE_CHANGE_BEGIN : String := "state-change-begin"
def STATE_CHANGE_END : String := "state-change-end"
def SINK_ERROR : String := "sink-error"

/-- Modelled from the spec: the `REGISTER_METRICS` event constant. Its
declaration is not among the repository files under src (only its caller,
`metrics.Register` in src/unnamed/part_002, which emits
`event.Sendf(event.REGISTER_METRICS, domain)`, is); the spec lists
`register-metrics` in the closed set of event names. -/
def REGISTER_METRICS : String := "register-metrics"

/-! ## metrics package: registry and built-in factory (src/unnamed/part_002) -/

/-- blip.CollectorFactory: makes a collector of type `C` for a domain name,
given factory args of type `A` (blip.CollectorFactoryArgs is abstracted). -/
structure CollectorFactory (C A : Type) where
  make : String → A → Except String C

/-- The registry's `domain → factory` map (`repo.factory`); `none` embeds an
absent key. -/
abbrev Registry (C A : Type) := String → Option (CollectorFactory C A)

/-- metrics.Register. `strict` is the package-level `blip.Strict` flag.
Returns the updated registry map and the returned error, if any: with
strict set and the domain already bound it fails without touching the map,
otherwise it overwrites the binding and returns nil. -/
def Register {C A : Type} (strict : Bool) (r : Registry C A) (domain : String)
    (f : CollectorFactory C A) : Registry C A × Option String :=
  if (r domain).isSome && strict then
    (r, some (domain ++ " already registered"))
  else
    (upd r domain (some f), none)

/-- metrics.Make: look up the registered factory for the domain and call its
`Make`; an unregistered domain is an error (the misspelling "registeres" is
the source's). -/
def registryMake {C A : Type} (r : Registry C A) (domain : String) (args : A) :
    Except String C :=
  match r domain with
  | none => Except.error (domain ++ " not registeres")
  | some f => f.make domain args

/-- The collectors the built-in factory can construct (one constructor per
`case` of `factory.Make`). -/
inductive BuiltinCollector where
  | statusGlobal
  | varGlobal
  | sizeData
  | sizeBinlogs
  | innodbMetrics
deriving DecidableEq

/-- factory.Make: the built-in factory's switch over domain names. The
constructor arguments (`args.DB`) do not affect which branch is taken and
are dropped here. -/
def factoryMake (domain : String) : Except String BuiltinCollector :=
  if domain = "status.global" then Except.ok .statusGlobal
  else if domain = "var.global" then Except.ok .varGlobal
  else if domain = "size.data" then Except.ok .sizeData
  else if domain = "size.binlogs" then Except.ok .sizeBinlogs
  else if domain = "innodb" then Except.ok .innodbMetrics
  else Except.error ("collector for domain " ++ domain ++ " not registered")

/-- The `builtinCollectors` list registered by the package `init` func. -/
def builtinCollectors : List String :=
  ["status.global", "var.global", "size.data", "size.binlogs", "innodb"]

/-! ## var.global collector (src/metrics/var/global.go) -/

def OPT_SOURCE : String := "source"
def SOURCE_SELECT : String := "select"
def SOURCE_PFS : String := "pfs"
def SOURCE_SHOW : String := "show"

/-- One character of validMetricRegex's class, `[a-zA-Z0-9_-]`. -/
def validMetricChar (c : Char) : Bool :=
  ( 'a' ≤ c && c ≤ 'z') || ( 'A' ≤ c && c ≤ 'Z') || ( '0' ≤ c && c ≤ '9')
    || c == '_' || c == '-'

/-- validMetricRegex.MatchString: the regex is anchored on both sides with a
starred class, so a string matches iff every character is in the class. -/
def matchesValidMetric (s : String) : Bool :=
  s.toList.all validMetricChar

/-- validateMetricNames: reject the first name not matching validMetricRegex,
with the source's error text. -/
def validateMetricNames : List String → Option String
  | [] => none
  | name :: rest =>
    if matchesValidMetric name then validateMetricNames rest
    else some (name ++ " metric isn't a valid metric name")

/-- Value of a run of decimal digit characters. -/
def digitsVal (cs : List Char) : Nat :=
  cs.foldl (fun a c => 10 * a + (c.toNat - 48)) 0

/-- Magnitude part of a plain decimal literal: digits with an optional
fractional part, as an exact rational. -/
def goParseFloatMag (mag : List Char) : Option Rat :=
  let intPart := mag.takeWhile (fun c => c != '.')
  let rest := mag.dropWhile (fun c => c != '.')
  match rest with
  | [] =>
    if !intPart.isEmpty && intPart.all Char.isDigit then
      some ((digitsVal intPart : Nat) : Rat)
    else none
  | _ :: frac =>
    if !intPart.isEmpty && !frac.isEmpty && intPart.all Char.isDigit
        && frac.all Char.isDigit then
      some (((digitsVal intPart : Nat) : Rat)
        + ((digitsVal frac : Nat) : Rat) / ((10 : Rat) ^ frac.length))
    else none

/-- Models strconv.ParseFloat(s, 64) restricted to plain decimal literals
(optional sign, digits, optional fractional part): the exact rational value,
or none on anything else. The claims only exercise such inputs. -/
def goParseFloat (s : String) : Option Rat :=
  match s.toList with
  | '-' :: r => (goParseFloatMag r).map (fun v => -v)
  | '+' :: r => goParseFloatMag r
  | r => goParseFloatMag r

/-- The Global collector's per-level state: the three `map[string]` fields of
the Go `Global` struct. The `*sql.DB` handle is passed to each function
instead of being stored. -/
structure Global where
  workIn : String → List String
  queryIn : String → String
  sourceIn : String → String

/-- NewGlobal: fresh collector state, all maps empty (a Go map read of a
missing key yields the zero value). -/
def NewGlobal : Global :=
  { workIn := fun _ => [], queryIn := fun _ => "", sourceIn := fun _ => "" }

/-- Result of a collect call: the query texts issued to the DB, in order,
and the Go outcome. -/
structure CollectOut where
  log : List String
  res : GoRes (List MetricValue)
deriving DecidableEq

/-- Result of a prepare call: queries issued, the collector state after the
call (Go mutates the receiver in place even when it then returns an error),
and the outcome. -/
structure PrepOut where
  log : List String
  st : Global
  res : GoRes Unit

/-- The query prepareSELECT builds:
`SELECT CONCAT_WS(',', @@GLOBAL.m1, @@GLOBAL.m2, ...) v;`. -/
def selectQuery (metrics : List String) : String :=
  "SELECT CONCAT_WS(',', "
    ++ String.intercalate ", " (metrics.map (fun m => "@@GLOBAL." ++ m))
    ++ ") v;"

/-- The query preparePFS builds (strings.Join over `', '`, spliced between
single quotes). -/
def pfsQuery (metrics : List String) : String :=
  "SELECT variable_name, variable_value from performance_schema.global_variables WHERE variable_name in ('"
    ++ String.intercalate "', '" metrics ++ "');"

/-- The query prepareSHOW builds. -/
def showQuery (metrics : List String) : String :=
  "SHOW GLOBAL VARIABLES WHERE variable_name in ('"
    ++ String.intercalate "', '" metrics ++ "');"

/-- Split a character list at every separator occurrence (never returns an
empty list of pieces). -/
def splitOnChar (sep : Char) : List Char → List (List Char)
  | [] => [[]]
  | c :: cs =>
    let r := splitOnChar sep cs
    if c = sep then [] :: r
    else
      match r with
      | [] => [[c]]
      | h :: t => (c :: h) :: t

/-- Go's strings.Split(s, sep) for a one-character separator, as
collectSELECT uses it: splitting the empty string yields one empty field. -/
def goSplit (s : String) (sep : Char) : List String :=
  (splitOnChar sep s.toList).map fun cs => String.mk cs

/-- rows.Scan(&val) with one destination: succeeds iff the row has exactly
one column; a scan error makes the row be skipped. -/
def scan1 : Row → Option String
  | [v] => some v
  | _ => none

/-- rows.Scan(&m.Name, &val): succeeds iff the row has exactly two columns. -/
def scan2 : Row → Option (String × String)
  | [a, b] => some (a, b)
  | _ => none

/-- The inner loop of collectSELECT over the remembered metric names:
`values` is the row split on ","; the Go indexing `values[idx]` panics when
idx is out of range; an unparseable value skips just that metric. -/
def selectRow (values : List String) : List String → Nat → GoRes (List MetricValue)
  | [], _ => .ok []
  | name :: names, idx =>
    if idx < values.length then
      match goParseFloat (values.getD idx "") with
      | none => selectRow values names (idx + 1)
      | some x =>
        match selectRow values names (idx + 1) with
        | .ok ms => .ok ({ name := name, value := x, type := GAUGE } :: ms)
        | r => r
    else .panicked "runtime error: index out of range"

/-- The row loop of collectSELECT: a scan failure skips the row; a panic in
the inner loop unwinds. -/
def selectRows (names : List String) : List Row → GoRes (List MetricValue)
  | [] => .ok []
  | r :: rs =>
    match scan1 r with
    | none => selectRows names rs
    | some v =>
      match selectRow (goSplit v ',') names 0 with
      | .ok ms =>
        match selectRows names rs with
        | .ok ms2 => .ok (ms ++ ms2)
        | r2 => r2
      | r1 => r1

/-- Global.collectSELECT: issue the level's prepared query and parse the
single CONCAT_WS column by position. -/
def collectSELECT (db : DB) (g : Global) (levelName : String) : CollectOut :=
  match db (g.queryIn levelName) with
  | .error e => { log := [g.queryIn levelName], res := .err e }
  | .ok rows => { log := [g.queryIn levelName], res := selectRows (g.workIn levelName) rows }

/-- The row loop shared by the pfs and show sources: two-column rows
`(name, value)`; scan or parse failures skip the row. -/
def showPfsRows : List Row → List MetricValue
  | [] => []
  | r :: rs =>
    match scan2 r with
    | none => showPfsRows rs
    | some (n, v) =>
      match goParseFloat v with
      | none => showPfsRows rs
      | some x => { name := n, value := x, type := GAUGE } :: showPfsRows rs

/-- Global.collectSHOWorPFS. -/
def collectSHOWorPFS (db : DB) (g : Global) (levelName : String) : CollectOut :=
  match db (g.queryIn levelName) with
  | .error e => { log := [g.queryIn levelName], res := .err e }
  | .ok rows => { log := [g.queryIn levelName], res := .ok (showPfsRows rows) }

/-- Global.collectPFS delegates to collectSHOWorPFS. -/
def collectPFS : DB → Global → String → CollectOut := collectSHOWorPFS

/-- Global.collectSHOW delegates to collectSHOWorPFS. -/
def collectSHOW : DB → Global → String → CollectOut := collectSHOWorPFS

/-- Global.prepareSELECT: store the query and source tag for the level, then
probe by collecting once and discarding the metrics. -/
def prepareSELECT (db : DB) (g : Global) (levelName : String) : PrepOut :=
  let g1 : Global := { g with
    queryIn := upd g.queryIn levelName (selectQuery (g.workIn levelName))
    sourceIn := upd g.sourceIn levelName SOURCE_SELECT }
  let c := collectSELECT db g1 levelName
  { log := c.log, st := g1, res := c.res.ignore }

/-- Global.preparePFS: store the query and source tag, then probe. -/
def preparePFS (db : DB) (g : Global) (levelName : String) : PrepOut :=
  let g1 : Global := { g with
    queryIn := upd g.queryIn levelName (pfsQuery (g.workIn levelName))
    sourceIn := upd g.sourceIn levelName SOURCE_PFS }
  let c := collectPFS db g1 levelName
  { log := c.log, st := g1, res := c.res.ignore }

/-- Global.prepareSHOW: store the query and source tag, then probe (the
source calls collectPFS here, the same shared row logic). -/
def prepareSHOW (db : DB) (g : Global) (levelName : String) : PrepOut :=
  let g1 : Global := { g with
    queryIn := upd g.queryIn levelName (showQuery (g.workIn levelName))
    sourceIn := upd g.sourceIn levelName SOURCE_SHOW }
  let c := collectPFS db g1 levelName
  { log := c.log, st := g1, res := c.res.ignore }

/-- Global.prepareLevel: reset the level's state, validate the metric
names, remember the metrics, then either force the user-chosen source (no
fallback, unknown values rejected) or auto-probe select, then pfs, then
show, keeping the first that succeeds. -/
def prepareLevel (db : DB) (g : Global) (levelName : String)
    (metrics : List String) (options : Option (String → String)) : PrepOut :=
  let g0 : Global := { workIn := upd g.workIn levelName []
                       queryIn := upd g.queryIn levelName ""
                       sourceIn := upd g.sourceIn levelName "" }
  match validateMetricNames metrics with
  | some e => { log := [], st := g0, res := .err e }
  | none =>
    let g1 : Global := { g0 with
      workIn := upd g0.workIn levelName (g0.workIn levelName ++ metrics) }
    let src : String :=
      match options with
      | none => ""
      | some opts => opts OPT_SOURCE
    if src != "" && src != "auto" then
      if src = SOURCE_SELECT then prepareSELECT db g1 levelName
      else if src = SOURCE_PFS then preparePFS db g1 levelName
      else if src = SOURCE_SHOW then prepareSHOW db g1 levelName
      else { log := [], st := g1,
             res := .err ("invalid source: " ++ src ++ "; valid values: auto, select, pfs, show") }
    else
      let p1 := prepareSELECT db g1 levelName
      match p1.res with
      | .err _ =>
        let p2 := preparePFS db p1.st levelName
        match p2.res with
        | .err _ =>
          let p3 := prepareSHOW db p2.st levelName
          match p3.res with
          | .err e3 => { log := p1.log ++ p2.log ++ p3.log, st := p3.st,
                         res := .err ("auto source failed, last error: " ++ e3) }
          | r3 => { log := p1.log ++ p2.log ++ p3.log, st := p3.st, res := r3 }
        | r2 => { log := p1.log ++ p2.log, st := p2.st, res := r2 }
      | _ => p1

/-- collect.Domain: the metric names and options of one domain in a level
(an absent Options map is `none`). -/
structure PlanDomain where
  metrics : List String
  options : Option (String → String)

/-- collect.Level, reduced to its Collect map (a lookup by domain name). -/
structure PlanLevel where
  collect : String → Option PlanDomain

/-- collect.Plan: the Levels map as an association list fixing one Go map
iteration order. -/
structure Plan where
  levels : List (String × PlanLevel)

/-- The loop body of Global.Prepare over the plan's levels: skip levels
that do not collect var.global, stop at the first error (or panic). -/
def prepareLevels (db : DB) (g : Global) : List (String × PlanLevel) → PrepOut
  | [] => { log := [], st := g, res := .ok () }
  | (levelName, level) :: rest =>
    match level.collect "var.global" with
    | none => prepareLevels db g rest
    | some dom =>
      let p := prepareLevel db g levelName dom.metrics dom.options
      match p.res with
      | .ok _ =>
        let q := prepareLevels db p.st rest
        { log := p.log ++ q.log, st := q.st, res := q.res }
      | r => { log := p.log, st := p.st, res := r }

/-- Global.Prepare. -/
def Prepare (db : DB) (g : Global) (plan : Plan) : PrepOut :=
  prepareLevels db g plan.levels

/-- Global.Collect: dispatch on the level's stored source tag; any other
tag (the empty one included) reaches the panic branch. -/
def Collect (db : DB) (g : Global) (levelName : String) : CollectOut :=
  if g.sourceIn levelName = SOURCE_SELECT then collectSELECT db g levelName
  else if g.sourceIn levelName = SOURCE_PFS then collectPFS db g levelName
  else if g.sourceIn levelName = SOURCE_SHOW then collectSHOW db g levelName
  else { log := [], res := .panicked ("invalid source in Collect " ++ g.sourceIn levelName) }

/-! ## Helper lemmas about the per-source prepare functions -/

theorem prepareSELECT_log (db : DB) (g : Global) (l : String) :
    (prepareSELECT db g l).log = [selectQuery (g.workIn l)] := by
  simp only [prepareSELECT, collectSELECT, upd_self]
  cases db (selectQuery (g.workIn l)) <;> rfl

theorem prepareSELECT_res (db : DB) (g : Global) (l : String) :
    (prepareSELECT db g l).res =
      (match db (selectQuery (g.workIn l)) with
       | .error e => GoRes.err e
       | .ok rows => (selectRows (g.workIn l) rows).ignore) := by
  simp only [prepareSELECT, collectSELECT, upd_self]
  cases db (selectQuery (g.workIn l)) <;> rfl

theorem prepareSELECT_st_workIn (db : DB) (g : Global) (l : String) :
    (prepareSELECT db g l).st.workIn = g.workIn := rfl

theorem prepareSELECT_st_sourceIn_self (db : DB) (g : Global) (l : String) :
    (prepareSELECT db g l).st.sourceIn l = SOURCE_SELECT := upd_self _ _ _

theorem prepareSELECT_st_queryIn_self (db : DB) (g : Global) (l : String) :
    (prepareSELECT db g l).st.queryIn l = selectQuery (g.workIn l) := upd_self _ _ _

theorem preparePFS_log (db : DB) (g : Global) (l : String) :
    (preparePFS db g l).log = [pfsQuery (g.workIn l)] := by
  simp only [preparePFS, collectPFS, collectSHOWorPFS, upd_self]
  cases db (pfsQuery (g.workIn l)) <;> rfl

theorem preparePFS_res (db : DB) (g : Global) (l : String) :
    (preparePFS db g l).res =
      (match db (pfsQuery (g.workIn l)) with
       | .error e => GoRes.err e
       | .ok _ => GoRes.ok ()) := by
  simp only [preparePFS, collectPFS, collectSHOWorPFS, upd_self]
  cases db (pfsQuery (g.workIn l)) <;> rfl

theorem preparePFS_st_workIn (db : DB) (g : Global) (l : String) :
    (preparePFS db g l).st.workIn = g.workIn := rfl

theorem preparePFS_st_sourceIn_self (db : DB) (g : Global) (l : String) :
    (preparePFS db g l).st.sourceIn l = SOURCE_PFS := upd_self _ _ _

theorem preparePFS_st_queryIn_self (db : DB) (g : Global) (l : String) :
    (preparePFS db g l).st.queryIn l = pfsQuery (g.workIn l) := upd_self _ _ _

theorem prepareSHOW_log (db : DB) (g : Global) (l : String) :
    (prepareSHOW db g l).log = [showQuery (g.workIn l)] := by
  simp only [prepareSHOW, collectPFS, collectSHOWorPFS, upd_self]
  cases db (showQuery (g.workIn l)) <;> rfl

theorem prepareSHOW_res (db : DB) (g : Global) (l : String) :
    (prepareSHOW db g l).res =
      (match db (showQuery (g.workIn l)) with
       | .error e => GoRes.err e
       | .ok _ => GoRes.ok ()) := by
  simp only [prepareSHOW, collectPFS, collectSHOWorPFS, upd_self]
  cases db (showQuery (g.workIn l)) <;> rfl

theorem prepareSHOW_st_workIn (db : DB) (g : Global) (l : String) :
    (prepareSHOW db g l).st.workIn = g.workIn := rfl

theorem prepareSHOW_st_sourceIn_self (db : DB) (g : Global) (l : String) :
    (prepareSHOW db g l).st.sourceIn l = SOURCE_SHOW := upd_self _ _ _

theorem prepareSHOW_st_queryIn_self (db : DB) (g : Global) (l : String) :
    (prepareSHOW db g l).st.queryIn l = showQuery (g.workIn l) := upd_self _ _ _

/-! ## Frame lemmas: prepare calls touch only their own level's entries -/

/-- The two states agree on every level name other than `l`. -/
def agreesExcept (g g' : Global) (l : String) : Prop :=
  ∀ x, x ≠ l →
    g'.workIn x = g.workIn x ∧ g'.queryIn x = g.queryIn x ∧ g'.sourceIn x = g.sourceIn x

theorem agreesExcept_refl (g : Global) (l : String) : agreesExcept g g l :=
  fun _ _ => ⟨rfl, rfl, rfl⟩

theorem agreesExcept_trans {g g' g'' : Global} {l : String}
    (h1 : agreesExcept g g' l) (h2 : agreesExcept g' g'' l) :
    agreesExcept g g'' l := by
  intro x hx
  obtain ⟨a1, b1, c1⟩ := h1 x hx
  obtain ⟨a2, b2, c2⟩ := h2 x hx
  exact ⟨a2.trans a1, b2.trans b1, c2.trans c1⟩

theorem prepareSELECT_frame (db : DB) (g : Global) (l : String) :
    agreesExcept g (prepareSELECT db g l).st l := by
  intro x hx
  exact ⟨rfl, upd_ne _ _ _ _ hx, upd_ne _ _ _ _ hx⟩

theorem preparePFS_frame (db : DB) (g : Global) (l : String) :
    agreesExcept g (preparePFS db g l).st l := by
  intro x hx
  exact ⟨rfl, upd_ne _ _ _ _ hx, upd_ne _ _ _ _ hx⟩

theorem prepareSHOW_frame (db : DB) (g : Global) (l : String) :
    agreesExcept g (prepareSHOW db g l).st l := by
  intro x hx
  exact ⟨rfl, upd_ne _ _ _ _ hx, upd_ne _ _ _ _ hx⟩

theorem prepareLevel_frame (db : DB) (g : Global) (l : String)
    (ms : List String) (o : Option (String → String)) :
    agreesExcept g (prepareLevel db g l ms o).st l := by
  intro x hx
  unfold prepareLevel
  repeat' split
  all_goals simp only [prepareSELECT, preparePFS, prepareSHOW]
  all_goals repeat' split
  all_goals simp [upd, hx]

theorem prepareLevel_ok_sourceIn (db : DB) (g : Global) (l : String)
    (ms : List String) (o : Option (String → String)) :
    (prepareLevel db g l ms o).res = GoRes.ok () →
      (prepareLevel db g l ms o).st.sourceIn l = SOURCE_SELECT ∨
      (prepareLevel db g l ms o).st.sourceIn l = SOURCE_PFS ∨
      (prepareLevel db g l ms o).st.sourceIn l = SOURCE_SHOW := by
  unfold prepareLevel
  repeat' split
  all_goals simp only [prepareSELECT, preparePFS, prepareSHOW]
  all_goals repeat' split
  all_goals intro h
  all_goals simp_all [upd, GoRes.ignore]

/-! ## Lemmas about the Prepare loop over a plan's levels -/

theorem prepareLevels_nil (db : DB) (g : Global) :
    prepareLevels db g [] = { log := [], st := g, res := GoRes.ok () } := rfl

theorem prepareLevels_cons_skip (db : DB) (g : Global) (n : String)
    (lv : PlanLevel) (rest : List (String × PlanLevel))
    (hcol : lv.collect "var.global" = none) :
    prepareLevels db g ((n, lv) :: rest) = prepareLevels db g rest := by
  simp [prepareLevels, hcol]

theorem prepareLevels_cons_ok (db : DB) (g : Global) (n : String)
    (lv : PlanLevel) (dom : PlanDomain) (rest : List (String × PlanLevel))
    (hcol : lv.collect "var.global" = some dom)
    (hres : (prepareLevel db g n dom.metrics dom.options).res = GoRes.ok ()) :
    prepareLevels db g ((n, lv) :: rest) =
      { log := (prepareLevel db g n dom.metrics dom.options).log ++
          (prepareLevels db (prepareLevel db g n dom.metrics dom.options).st rest).log
        st := (prepareLevels db (prepareLevel db g n dom.metrics dom.options).st rest).st
        res := (prepareLevels db (prepareLevel db g n dom.metrics dom.options).st rest).res } := by
  simp [prepareLevels, hcol, hres]

theorem prepareLevels_cons_err (db : DB) (g : Global) (n : String)
    (lv : PlanLevel) (dom : PlanDomain) (rest : List (String × PlanLevel)) (e : String)
    (hcol : lv.collect "var.global" = some dom)
    (hres : (prepareLevel db g n dom.metrics dom.options).res = GoRes.err e) :
    prepareLevels db g ((n, lv) :: rest) =
      { log := (prepareLevel db g n dom.metrics dom.options).log
        st := (prepareLevel db g n dom.metrics dom.options).st
        res := GoRes.err e } := by
  simp [prepareLevels, hcol, hres]

theorem prepareLevels_cons_panicked (db : DB) (g : Global) (n : String)
    (lv : PlanLevel) (dom : PlanDomain) (rest : List (String × PlanLevel)) (m : String)
    (hcol : lv.collect "var.global" = some dom)
    (hres : (prepareLevel db g n dom.metrics dom.options).res = GoRes.panicked m) :
    prepareLevels db g ((n, lv) :: rest) =
      { log := (prepareLevel db g n dom.metrics dom.options).log
        st := (prepareLevel db g n dom.metrics dom.options).st
        res := GoRes.panicked m } := by
  simp [prepareLevels, hcol, hres]

theorem prepareLevels_frame (db : DB) (levels : List (String × PlanLevel)) :
    ∀ (g : Global) (x : String), (∀ p ∈ levels, x ≠ p.1) →
      (prepareLevels db g levels).st.workIn x = g.workIn x ∧
      (prepareLevels db g levels).st.queryIn x = g.queryIn x ∧
      (prepareLevels db g levels).st.sourceIn x = g.sourceIn x := by
  induction levels with
  | nil => intro g x _; exact ⟨rfl, rfl, rfl⟩
  | cons hd rest ih =>
    intro g x hx
    obtain ⟨n, lv⟩ := hd
    have hxn : x ≠ n := hx (n, lv) (List.mem_cons_self _ _)
    have hxr : ∀ p ∈ rest, x ≠ p.1 := fun p hp => hx p (List.mem_cons_of_mem _ hp)
    cases hcol : lv.collect "var.global" with
    | none => rw [prepareLevels_cons_skip db g n lv rest hcol]; exact ih g x hxr
    | some dom =>
      have hfr := prepareLevel_frame db g n dom.metrics dom.options x hxn
      cases hres : (prepareLevel db g n dom.metrics dom.options).res with
      | ok u =>
        rw [prepareLevels_cons_ok db g n lv dom rest hcol hres]
        have hrest := ih (prepareLevel db g n dom.metrics dom.options).st x hxr
        exact ⟨hrest.1.trans hfr.1, hrest.2.1.trans hfr.2.1, hrest.2.2.trans hfr.2.2⟩
      | err e =>
        rw [prepareLevels_cons_err db g n lv dom rest e hcol hres]
        exact hfr
      | panicked m =>
        rw [prepareLevels_cons_panicked db g n lv dom rest m hcol hres]
        exact hfr

theorem prepareLevels_ok_sourceIn (db : DB) (levels : List (String × PlanLevel)) :
    ∀ g : Global, (levels.map Prod.fst).Nodup →
      (prepareLevels db g levels).res = GoRes.ok () →
      ∀ n lv, (n, lv) ∈ levels → ∀ dom, lv.collect "var.global" = some dom →
        (prepareLevels db g levels).st.sourceIn n = SOURCE_SELECT ∨
        (prepareLevels db g levels).st.sourceIn n = SOURCE_PFS ∨
        (prepareLevels db g levels).st.sourceIn n = SOURCE_SHOW := by
  induction levels with
  | nil =>
    intro g _ _ n lv hmem
    exact absurd hmem (List.not_mem_nil _)
  | cons hd rest ih =>
    intro g hnd hok n lv hmem dom hdom
    obtain ⟨m, mlv⟩ := hd
    have hnd' : (rest.map Prod.fst).Nodup := (List.nodup_cons.mp hnd).2
    have hmnot : m ∉ rest.map Prod.fst := (List.nodup_cons.mp hnd).1
    cases hcol : mlv.collect "var.global" with
    | none =>
      rw [prepareLevels_cons_skip db g m mlv rest hcol] at hok ⊢
      rcases List.mem_cons.mp hmem with hh | hr
      · obtain ⟨h1, h2⟩ := Prod.mk.injEq .. ▸ hh
        exact absurd (h2 ▸ hdom) (by simp [hcol])
      · exact ih g hnd' hok n lv hr dom hdom
    | some dm =>
      cases hres : (prepareLevel db g m dm.metrics dm.options).res with
      | ok u =>
        rw [prepareLevels_cons_ok db g m mlv dm rest hcol hres] at hok ⊢
        rcases List.mem_cons.mp hmem with hh | hr
        · have h1 : n = m := congrArg Prod.fst hh
          subst h1
          have hframe := prepareLevels_frame db rest
            (prepareLevel db g n dm.metrics dm.options).st n
            (fun p hp hq => hmnot (hq ▸ List.mem_map_of_mem Prod.fst hp))
          rw [hframe.2.2]
          exact prepareLevel_ok_sourceIn db g n dm.metrics dm.options hres
        · exact ih (prepareLevel db g m dm.metrics dm.options).st hnd' hok n lv hr dom hdom
      | err e =>
        rw [prepareLevels_cons_err db g m mlv dm rest e hcol hres] at hok
        exact absurd hok (by simp)
      | panicked pm =>
        rw [prepareLevels_cons_panicked db g m mlv dm rest pm hcol hres] at hok
        exact absurd hok (by simp)

theorem prepareLevels_err_decomp (db : DB) (levels : List (String × PlanLevel)) :
    ∀ (g : Global) (e : String), (prepareLevels db g levels).res = GoRes.err e →
      ∃ (pre : List (String × PlanLevel)) (n : String) (lv : PlanLevel)
        (dom : PlanDomain) (post : List (String × PlanLevel)) (l1 : List String),
        levels = pre ++ (n, lv) :: post ∧
        lv.collect "var.global" = some dom ∧
        (prepareLevels db g pre).res = GoRes.ok () ∧
        prepareLevel db (prepareLevels db g pre).st n dom.metrics dom.options =
          { log := l1, st := (prepareLevels db g levels).st, res := GoRes.err e } ∧
        (prepareLevels db g levels).log = (prepareLevels db g pre).log ++ l1 := by
  induction levels with
  | nil =>
    intro g e h
    rw [prepareLevels_nil] at h
    exact absurd h (by simp)
  | cons hd rest ih =>
    intro g e h
    obtain ⟨m, mlv⟩ := hd
    cases hcol : mlv.collect "var.global" with
    | none =>
      have hskip := prepareLevels_cons_skip db g m mlv rest hcol
      rw [hskip] at h
      obtain ⟨pre, n, lv, dom, post, l1, hdec, hdom, hpre, hlev, hlog⟩ := ih g e h
      refine ⟨(m, mlv) :: pre, n, lv, dom, post, l1, by rw [hdec]; simp, hdom, ?_, ?_, ?_⟩
      · rw [prepareLevels_cons_skip db g m mlv pre hcol]; exact hpre
      · rw [prepareLevels_cons_skip db g m mlv pre hcol, hskip]; exact hlev
      · rw [prepareLevels_cons_skip db g m mlv pre hcol, hskip]; exact hlog
    | some dm =>
      cases hres : (prepareLevel db g m dm.metrics dm.options).res with
      | ok u =>
        have hcons := prepareLevels_cons_ok db g m mlv dm rest hcol hres
        rw [hcons] at h
        simp only at h
        obtain ⟨pre, n, lv, dom, post, l1, hdec, hdom, hpre, hlev, hlog⟩ :=
          ih (prepareLevel db g m dm.metrics dm.options).st e h
        have hcons' := prepareLevels_cons_ok db g m mlv dm pre hcol hres
        refine ⟨(m, mlv) :: pre, n, lv, dom, post, l1, by rw [hdec]; simp, hdom, ?_, ?_, ?_⟩
        · rw [hcons']; exact hpre
        · rw [hcons', hcons]; exact hlev
        · rw [hcons', hcons]
          simp only
          rw [hlog, List.append_assoc]
      | err e0 =>
        have hcons := prepareLevels_cons_err db g m mlv dm rest e0 hcol hres
        rw [hcons] at h
        simp only at h
        have he : e0 = e := by
          have := h
          simpa using this
        subst he
        refine ⟨[], m, mlv, dm, rest, (prepareLevel db g m dm.metrics dm.options).log,
          rfl, hcol, by rw [prepareLevels_nil], ?_, ?_⟩
        · rw [prepareLevels_nil, hcons]
          simp only
          rw [← hres]
        · rw [prepareLevels_nil, hcons]
          simp
      | panicked pm =>
        have hcons := prepareLevels_cons_panicked db g m mlv dm rest pm hcol hres
        rw [hcons] at h
        exact absurd h (by simp)

/-! ## Row-parsing lemmas for the select source -/

theorem selectRow_parses (vs : List String) :
    ∀ (ns : List String) (idx : Nat) (xs : List Rat),
      (vs.drop idx).mapM goParseFloat = some xs →
      ns.length = xs.length →
      selectRow vs ns idx =
        GoRes.ok (List.zipWith
          (fun n x => { name := n, value := x, type := GAUGE }) ns xs) := by
  intro ns
  induction ns with
  | nil =>
    intro idx xs _ hlen
    cases xs with
    | nil => rfl
    | cons a as => simp at hlen
  | cons n ns ih =>
    intro idx xs h hlen
    cases xs with
    | nil => simp at hlen
    | cons x xs' =>
      cases hd : vs.drop idx with
      | nil =>
        rw [hd, List.mapM_nil] at h
        simp at h
      | cons v rest =>
        have hidx : idx < vs.length := by
          by_contra hc
          push_neg at hc
          rw [List.drop_eq_nil_of_le hc] at hd
          exact List.noConfusion hd
        have hdg := List.drop_eq_getElem_cons hidx
        rw [hd] at hdg
        have hv : v = vs[idx] := (List.cons.injEq .. ▸ hdg.symm).1.symm
        have hrest : rest = vs.drop (idx + 1) := (List.cons.injEq .. ▸ hdg.symm).2.symm
        rw [hd, List.mapM_cons] at h
        cases hpv : goParseFloat v with
        | none => rw [hpv] at h; simp at h
        | some y =>
          rw [hpv] at h
          cases hbs : rest.mapM goParseFloat with
          | none => rw [hbs] at h; simp at h
          | some bs =>
            rw [hbs] at h
            simp only [Option.bind_eq_bind, Option.some_bind, Option.pure_def,
              Option.some.injEq, List.cons.injEq] at h
            obtain ⟨hyx, hbsxs⟩ := h
            subst hyx
            have hrec := ih (idx + 1) xs' (by rw [← hrest, hbs, hbsxs])
              (by simpa using hlen)
            simp only [selectRow, if_pos hidx]
            rw [List.getD_eq_getElem vs "" hidx, ← hv, hpv, hrec]
            simp

/-! ## Validation helper lemmas -/

theorem validateMetricNames_none_iff (ms : List String) :
    validateMetricNames ms = none ↔ ∀ n ∈ ms, matchesValidMetric n = true := by
  induction ms with
  | nil => simp [validateMetricNames]
  | cons n rest ih =>
    by_cases hn : matchesValidMetric n = true
    · simp only [validateMetricNames, if_pos hn, ih]
      constructor
      · intro h m hm
        rcases List.mem_cons.mp hm with hh | hr
        · rw [hh]; exact hn
        · exact h m hr
      · intro h m hm
        exact h m (List.mem_cons_of_mem _ hm)
    · simp only [validateMetricNames, if_neg hn]
      constructor
      · intro h; exact absurd h (by simp)
      · intro h; exact absurd (h n (List.mem_cons_self n rest)) hn

theorem validateMetricNames_some (ms : List String) (e : String) :
    validateMetricNames ms = some e →
      ∃ n ∈ ms, matchesValidMetric n = false ∧
        e = n ++ " metric isn't a valid metric name" := by
  induction ms with
  | nil => intro h; simp [validateMetricNames] at h
  | cons n rest ih =>
    intro h
    by_cases hn : matchesValidMetric n = true
    · rw [validateMetricNames, if_pos hn] at h
      obtain ⟨m, hm, hf, he⟩ := ih h
      exact ⟨m, List.mem_cons_of_mem _ hm, hf, he⟩
    · rw [validateMetricNames, if_neg hn] at h
      have hf : matchesValidMetric n = false := by
        cases hmn : matchesValidMetric n with
        | false => rfl
        | true => exact absurd hmn hn
      have he : e = n ++ " metric isn't a valid metric name" := by
        have := h.symm
        simpa using this
      exact ⟨n, List.mem_cons_self _ _, hf, he⟩

/-! ## Claim theorems -/

/-- C10: the event package defines a constant for every event name in the
spec's minimum closed set, with exactly that string value (the
REGISTER_METRICS constant is modelled from the spec, see its doc
comment; every other constant is from the event package source). -/
theorem c10_event_constants :
    MONITOR_STARTED = "monitor-started" ∧ MONITOR_STOPPED = "monitor-stopped" ∧
    MONITOR_ERROR = "monitor-error" ∧ MONITOR_PANIC = "monitor-panic" ∧
    MONITOR_CONNECTING = "connecting" ∧ MONITOR_CONNECTED = "connected" ∧
    LPC_RUNNING = "lpc-running" ∧ LPC_PAUSED = "lpc-paused" ∧
    LPC_BLOCKED = "lpc-blocked" ∧ LPC_PANIC = "lpc-panic" ∧
    ENGINE_PREPARE = "engine-prepare" ∧
    ENGINE_PREPARE_SUCCESS = "engine-prepare-success" ∧
    ENGINE_PREPARE_ERROR = "engine-prepare-error" ∧
    ENGINE_COLLECT_ERROR = "engine-collect-error" ∧
    CHANGE_PLAN = "change-plan" ∧ CHANGE_PLAN_SUCCESS = "change-plan-success" ∧
    CHANGE_PLAN_ERROR = "change-plan-error" ∧
    STATE_CHANGE_BEGIN = "state-change-begin" ∧
    STATE_CHANGE_END = "state-change-end" ∧
    STATE_CHANGE_ABORT = "state-change-abort" ∧
    SINK_ERROR = "sink-error" ∧ SINK_SEND_ERROR = "sink-send-error" ∧
    COLLECTOR_ERROR = "collector-error" ∧ COLLECTOR_PANIC = "collector-panic" ∧
    REGISTER_METRICS = "register-metrics" :=
  ⟨rfl, rfl, rfl, rfl, rfl, rfl, rfl, rfl, rfl, rfl, rfl, rfl, rfl, rfl, rfl,
   rfl, rfl, rfl, rfl, rfl, rfl, rfl, rfl, rfl, rfl⟩

/-- C7 counterexample: the claim puts io.table in the closed set of domains
the built-in factory makes with nil error, but factory.Make returns an
error for io.table (its switch has no io.table case and the
builtinCollectors list does not contain it). -/
theorem c7_counterexample :
    factoryMake "io.table" =
        Except.error "collector for domain io.table not registered" ∧
      "io.table" ∉ builtinCollectors := by
  refine ⟨rfl, by decide⟩

/-- C7 amended: the built-in factory's Make returns a collector exactly for
the closed set status.global, var.global, size.data, size.binlogs, innodb
(io.table is not built in), and an error for every other domain. -/
theorem c7_factory_domains (d : String) :
    (∃ c, factoryMake d = Except.ok c) ↔ d ∈ builtinCollectors := by
  unfold factoryMake builtinCollectors
  by_cases h1 : d = "status.global" <;> by_cases h2 : d = "var.global" <;>
    by_cases h3 : d = "size.data" <;> by_cases h4 : d = "size.binlogs" <;>
    by_cases h5 : d = "innodb" <;>
  simp_all

/-- C8: registry semantics: with strict set, a Register of an
already-bound domain returns an error and leaves the whole mapping
untouched; without strict it returns nil and silently replaces the
binding; a first Register of an unbound domain binds it so Make uses that
factory, and Make of an unregistered domain returns an error. -/
theorem c8_register_make {C A : Type} (r : Registry C A) (d : String)
    (f0 f1 : CollectorFactory C A) :
    (r d = some f0 →
      Register true r d f1 = (r, some (d ++ " already registered"))) ∧
    (r d = some f0 →
      (Register false r d f1).2 = none ∧ (Register false r d f1).1 d = some f1) ∧
    (r d = none → ∀ strict,
      (Register strict r d f1).2 = none ∧
      (Register strict r d f1).1 d = some f1 ∧
      ∀ args, registryMake (Register strict r d f1).1 d args = f1.make d args) ∧
    (r d = none → ∀ args,
      registryMake r d args = Except.error (d ++ " not registeres")) := by
  refine ⟨?_, ?_, ?_, ?_⟩
  · intro h; simp [Register, h]
  · intro h; simp [Register, upd_self]
  · intro h strict
    refine ⟨?_, ?_, fun args => ?_⟩ <;> simp [Register, h, upd_self, registryMake]
  · intro h args; simp [registryMake, h]

/-- C8 witness: concrete registry with one bound domain: the strict
duplicate fails with the mapping returned unchanged, and Make of an
unregistered domain errors. -/
theorem c8_register_make_witness :
    (Register true
        (fun x => if x = "d" then
          some (⟨fun _ _ => Except.ok 7⟩ : CollectorFactory Nat Unit) else none)
        "d" ⟨fun _ _ => Except.ok 9⟩ =
      ((fun x => if x = "d" then
          some (⟨fun _ _ => Except.ok 7⟩ : CollectorFactory Nat Unit) else none),
        some ("d" ++ " already registered"))) ∧
    registryMake (fun _ => (none : Option (CollectorFactory Nat Unit))) "z" () =
      Except.error ("z" ++ " not registeres") :=
  ⟨(c8_register_make
      (fun x => if x = "d" then
        some (⟨fun _ _ => Except.ok 7⟩ : CollectorFactory Nat Unit) else none)
      "d" ⟨fun _ _ => Except.ok 7⟩ ⟨fun _ _ => Except.ok 9⟩).1 rfl,
   (c8_register_make (fun _ => (none : Option (CollectorFactory Nat Unit)))
      "z" ⟨fun _ _ => Except.ok 7⟩ ⟨fun _ _ => Except.ok 9⟩).2.2.2 rfl ()⟩

/-- C4 (code bug): a select-source level prepared for two metrics, collected
against a row "151" that splits into a single field: the positional access
values[1] is out of range, so collectSELECT panics instead of treating it
as a per-metric parse failure and returning the parsed metrics with a nil
error. -/
theorem c4_short_row_panics :
    Collect (fun _ => Except.ok [["151"]])
      { workIn := fun l =>
          if l = "kpi" then ["max_connections", "innodb_buffer_pool_size"] else []
        queryIn := fun l =>
          if l = "kpi" then
            selectQuery ["max_connections", "innodb_buffer_pool_size"] else ""
        sourceIn := fun l => if l = "kpi" then "select" else "" } "kpi" =
      { log := [selectQuery ["max_connections", "innodb_buffer_pool_size"]]
        res := GoRes.panicked "runtime error: index out of range" } := by
  decide

/-- C9: metric-name validation: a list containing a name with a character
outside [A-Za-z0-9_-] makes validateMetricNames return an error naming a
failing metric, and prepareLevel then fails before building or issuing any
SQL for the level (empty query log, query text left empty); a list whose
names are all made of class characters (the empty name included) passes. -/
theorem c9_validate_metric_names (ms : List String) :
    (validateMetricNames ms = none ↔ ∀ n ∈ ms, matchesValidMetric n = true) ∧
    (∀ s, matchesValidMetric s = true ↔ ∀ c ∈ s.toList, validMetricChar c = true) ∧
    (∀ e, validateMetricNames ms = some e →
      ∃ n ∈ ms, matchesValidMetric n = false ∧
        e = n ++ " metric isn't a valid metric name") ∧
    (∀ (db : DB) (g : Global) (l : String) (o : Option (String → String)) (e : String),
      validateMetricNames ms = some e →
      (prepareLevel db g l ms o).log = [] ∧
      (prepareLevel db g l ms o).res = GoRes.err e ∧
      (prepareLevel db g l ms o).st.queryIn l = "" ∧
      (prepareLevel db g l ms o).st.sourceIn l = "" ∧
      (prepareLevel db g l ms o).st.workIn l = []) := by
  refine ⟨validateMetricNames_none_iff ms, ?_, validateMetricNames_some ms, ?_⟩
  · intro s
    simp [matchesValidMetric, List.all_eq_true]
  · intro db g l o e h
    refine ⟨?_, ?_, ?_, ?_, ?_⟩ <;> simp [prepareLevel, h, upd]

/-- C9 witness: the space character makes "bad name" invalid, prepareLevel
fails with an empty query log before building SQL; names of class
characters, the empty name among them, pass validation. -/
theorem c9_validate_metric_names_witness :
    validateMetricNames ["max_connections", "", "a-b_C9"] = none ∧
    (prepareLevel (fun _ => Except.error "nope") NewGlobal "a" ["bad name"] none).log = [] ∧
    (prepareLevel (fun _ => Except.error "nope") NewGlobal "a" ["bad name"] none).res =
      GoRes.err "bad name metric isn't a valid metric name" ∧
    (prepareLevel (fun _ => Except.error "nope") NewGlobal "a" ["bad name"] none).st.queryIn "a" = "" :=
  ⟨(c9_validate_metric_names ["max_connections", "", "a-b_C9"]).1.mpr (by decide),
   ((c9_validate_metric_names ["bad name"]).2.2.2 (fun _ => Except.error "nope")
      NewGlobal "a" none "bad name metric isn't a valid metric name" (by decide)).1,
   ((c9_validate_metric_names ["bad name"]).2.2.2 (fun _ => Except.error "nope")
      NewGlobal "a" none "bad name metric isn't a valid metric name" (by decide)).2.1,
   ((c9_validate_metric_names ["bad name"]).2.2.2 (fun _ => Except.error "nope")
      NewGlobal "a" none "bad name metric isn't a valid metric name" (by decide)).2.2.1⟩

/-- C3: a level prepared for the select source with metric names ms,
collected against a result of one row whose comma-separated fields all
parse, yields exactly one MetricValue per requested metric, in the input
order of the metric list, each with type GAUGE. -/
theorem c3_select_collect_order (db : DB) (g : Global) (l : String)
    (ms : List String) (v : String) (xs : List Rat)
    (hw : g.workIn l = ms) (hs : g.sourceIn l = SOURCE_SELECT)
    (hq : g.queryIn l = selectQuery ms)
    (hdb : db (selectQuery ms) = Except.ok [[v]])
    (hp : (goSplit v ',').mapM goParseFloat = some xs)
    (hlen : ms.length = xs.length) :
    Collect db g l =
      { log := [selectQuery ms]
        res := GoRes.ok (List.zipWith
          (fun n x => { name := n, value := x, type := GAUGE }) ms xs) } := by
  have hrow := selectRow_parses (goSplit v ',') ms 0 xs (by simpa using hp) hlen
  simp [Collect, hs, collectSELECT, hq, hdb, hw, selectRows, scan1, hrow]

/-- C3 witness database: one row "151,134217728" for the two-metric select
query. -/
def c3db : DB := fun q =>
  if q = selectQuery ["max_connections", "innodb_buffer_pool_size"] then
    Except.ok [["151,134217728"]]
  else Except.error "unexpected query"

/-- C3 witness collector state: the level "kpi" prepared for the select
source with the two metrics of the claim. -/
def c3g : Global :=
  { workIn := fun l =>
      if l = "kpi" then ["max_connections", "innodb_buffer_pool_size"] else []
    queryIn := fun l =>
      if l = "kpi" then selectQuery ["max_connections", "innodb_buffer_pool_size"] else ""
    sourceIn := fun l => if l = "kpi" then SOURCE_SELECT else "" }

/-- C3 witness: the concrete scenario of the claim, values 151 and
134217728, both GAUGE, in input order. -/
theorem c3_select_collect_order_witness :
    Collect c3db c3g "kpi" =
      { log := [selectQuery ["max_connections", "innodb_buffer_pool_size"]]
        res := GoRes.ok
          [{ name := "max_connections", value := 151, type := GAUGE },
           { name := "innodb_buffer_pool_size", value := 134217728, type := GAUGE }] } := by
  have h := c3_select_collect_order c3db c3g "kpi"
    ["max_connections", "innodb_buffer_pool_size"] "151,134217728"
    [151, 134217728] rfl rfl rfl (by decide) (by decide) rfl
  simpa using h

/-- C5: after a Prepare that returned nil, every level of the plan that
collects var.global has a stored source tag among select, pfs, show, and
Collect dispatches to the corresponding collect function without reaching
the panic branch; conversely Collect on a level whose stored tag is
anything else (the never-prepared empty tag included) panics. -/
theorem c5_collect_dispatch_safety :
    (∀ (db : DB) (g : Global) (plan : Plan),
      (plan.levels.map Prod.fst).Nodup →
      (Prepare db g plan).res = GoRes.ok () →
      ∀ n lv, (n, lv) ∈ plan.levels → ∀ dom, lv.collect "var.global" = some dom →
        ((Prepare db g plan).st.sourceIn n = SOURCE_SELECT ∧
          ∀ db2 : DB, Collect db2 (Prepare db g plan).st n =
            collectSELECT db2 (Prepare db g plan).st n) ∨
        ((Prepare db g plan).st.sourceIn n = SOURCE_PFS ∧
          ∀ db2 : DB, Collect db2 (Prepare db g plan).st n =
            collectPFS db2 (Prepare db g plan).st n) ∨
        ((Prepare db g plan).st.sourceIn n = SOURCE_SHOW ∧
          ∀ db2 : DB, Collect db2 (Prepare db g plan).st n =
            collectSHOW db2 (Prepare db g plan).st n)) ∧
    (∀ (db : DB) (g : Global) (l : String),
      g.sourceIn l ≠ SOURCE_SELECT → g.sourceIn l ≠ SOURCE_PFS →
      g.sourceIn l ≠ SOURCE_SHOW →
      Collect db g l =
        { log := []
          res := GoRes.panicked ("invalid source in Collect " ++ g.sourceIn l) }) := by
  constructor
  · intro db g plan hnd hok n lv hmem dom hdom
    unfold Prepare
    rcases prepareLevels_ok_sourceIn db plan.levels g hnd hok n lv hmem dom hdom
      with h | h | h
    · exact Or.inl ⟨h, fun db2 => by unfold Collect; rw [h, if_pos rfl]⟩
    · refine Or.inr (Or.inl ⟨h, fun db2 => ?_⟩)
      unfold Collect
      rw [h, if_neg (by decide), if_pos rfl]
    · refine Or.inr (Or.inr ⟨h, fun db2 => ?_⟩)
      unfold Collect
      rw [h, if_neg (by decide), if_neg (by decide), if_pos rfl]
  · intro db g l h1 h2 h3
    unfold Collect
    rw [if_neg h1, if_neg h2, if_neg h3]

/-- C5 witness database: answers the one-metric select query. -/
def c5db : DB := fun q =>
  if q = selectQuery ["max_connections"] then Except.ok [["151"]]
  else Except.error "denied"

/-- C5 witness plan level: collects var.global with one metric, no
options. -/
def c5lv : PlanLevel :=
  ⟨fun d => if d = "var.global" then some ⟨["max_connections"], none⟩ else none⟩

/-- C5 witness: the prepared one-level plan dispatches to a valid source,
and Collect on the never-prepared fresh state panics. -/
theorem c5_collect_dispatch_safety_witness :
    (((Prepare c5db NewGlobal ⟨[("kpi", c5lv)]⟩).st.sourceIn "kpi" = SOURCE_SELECT ∧
      ∀ db2 : DB, Collect db2 (Prepare c5db NewGlobal ⟨[("kpi", c5lv)]⟩).st "kpi" =
        collectSELECT db2 (Prepare c5db NewGlobal ⟨[("kpi", c5lv)]⟩).st "kpi") ∨
     ((Prepare c5db NewGlobal ⟨[("kpi", c5lv)]⟩).st.sourceIn "kpi" = SOURCE_PFS ∧
      ∀ db2 : DB, Collect db2 (Prepare c5db NewGlobal ⟨[("kpi", c5lv)]⟩).st "kpi" =
        collectPFS db2 (Prepare c5db NewGlobal ⟨[("kpi", c5lv)]⟩).st "kpi") ∨
     ((Prepare c5db NewGlobal ⟨[("kpi", c5lv)]⟩).st.sourceIn "kpi" = SOURCE_SHOW ∧
      ∀ db2 : DB, Collect db2 (Prepare c5db NewGlobal ⟨[("kpi", c5lv)]⟩).st "kpi" =
        collectSHOW db2 (Prepare c5db NewGlobal ⟨[("kpi", c5lv)]⟩).st "kpi")) ∧
    Collect c5db NewGlobal "kpi" =
      { log := []
        res := GoRes.panicked ("invalid source in Collect " ++ NewGlobal.sourceIn "kpi") } :=
  ⟨c5_collect_dispatch_safety.1 c5db NewGlobal ⟨[("kpi", c5lv)]⟩ (by decide)
      (by decide) "kpi" c5lv (List.mem_singleton.mpr rfl)
      ⟨["max_connections"], none⟩ rfl,
   c5_collect_dispatch_safety.2 c5db NewGlobal "kpi" (by decide) (by decide) (by decide)⟩

/-- C6 counterexample database: real-server behaviour for an empty metric
list: the malformed empty-list select probe errors, the pfs query with an
empty IN list returns no rows. -/
def c6db : DB := fun q =>
  if q = pfsQuery [] then Except.ok []
  else Except.error "You have an error in your SQL syntax"

/-- C6 counterexample plan: one level "a" collecting var.global with an
empty metric list and no options. -/
def c6plan : Plan :=
  ⟨[("a", ⟨fun d => if d = "var.global" then some ⟨[], none⟩ else none⟩)]⟩

/-- C6 counterexample: on an empty-metric-list level Prepare succeeds and
Collect returns an empty sequence, but queries are issued to MySQL in both
phases: Prepare issues the select probe and the pfs probe, and Collect
issues the pfs query — the claim's "without issuing any query" is false. -/
theorem c6_counterexample :
    (Prepare c6db NewGlobal c6plan).res = GoRes.ok () ∧
    (Prepare c6db NewGlobal c6plan).log = [selectQuery [], pfsQuery []] ∧
    (Prepare c6db NewGlobal c6plan).log ≠ [] ∧
    Collect c6db (Prepare c6db NewGlobal c6plan).st "a" =
      { log := [pfsQuery []], res := GoRes.ok [] } ∧
    [pfsQuery []] ≠ ([] : List String) := by
  exact ⟨by decide, by decide, by decide, by decide, by decide⟩

/-- C6 amended: an empty-metric-list level is valid and Collect returns an
empty sequence of MetricValues, but queries are issued: under auto the
select probe issues the malformed empty-list query (which a real server
rejects), the pfs probe issues the empty-IN-list query, Prepare adopts pfs
when that probe succeeds, and every Collect issues the level's pfs query,
returning an empty sequence when the query returns no rows. -/
theorem c6_empty_metrics (db : DB) (g : Global) (l : String) (es : String)
    (hsel : db (selectQuery []) = Except.error es)
    (hpfs : db (pfsQuery []) = Except.ok []) :
    (prepareLevel db g l [] none).log = [selectQuery [], pfsQuery []] ∧
    (prepareLevel db g l [] none).res = GoRes.ok () ∧
    (prepareLevel db g l [] none).st.sourceIn l = SOURCE_PFS ∧
    (prepareLevel db g l [] none).st.workIn l = [] ∧
    (prepareLevel db g l [] none).st.queryIn l = pfsQuery [] ∧
    ∀ db2 : DB, db2 (pfsQuery []) = Except.ok [] →
      Collect db2 (prepareLevel db g l [] none).st l =
        { log := [pfsQuery []], res := GoRes.ok [] } := by
  have hs : (prepareLevel db g l [] none).st.sourceIn l = SOURCE_PFS := by
    simp [prepareLevel, validateMetricNames, prepareSELECT, preparePFS,
      collectSELECT, collectPFS, collectSHOWorPFS, upd, GoRes.ignore, hsel, hpfs]
  have hq : (prepareLevel db g l [] none).st.queryIn l = pfsQuery [] := by
    simp [prepareLevel, validateMetricNames, prepareSELECT, preparePFS,
      collectSELECT, collectPFS, collectSHOWorPFS, upd, GoRes.ignore, hsel, hpfs]
  refine ⟨?_, ?_, hs, ?_, hq, ?_⟩
  · simp [prepareLevel, validateMetricNames, prepareSELECT, preparePFS,
      collectSELECT, collectPFS, collectSHOWorPFS, upd, GoRes.ignore, hsel, hpfs]
  · simp [prepareLevel, validateMetricNames, prepareSELECT, preparePFS,
      collectSELECT, collectPFS, collectSHOWorPFS, upd, GoRes.ignore, hsel, hpfs]
  · simp [prepareLevel, validateMetricNames, prepareSELECT, preparePFS,
      collectSELECT, collectPFS, collectSHOWorPFS, upd, GoRes.ignore, hsel, hpfs]
  · intro db2 h2
    unfold Collect
    rw [hs]
    rw [if_neg (by decide), if_pos rfl]
    unfold collectPFS collectSHOWorPFS
    rw [hq, h2]
    rfl

/-- C6 amended witness: the amended statement at the counterexample's
database and a fresh collector. -/
theorem c6_empty_metrics_witness :
    (prepareLevel c6db NewGlobal "a" [] none).log = [selectQuery [], pfsQuery []] ∧
    (prepareLevel c6db NewGlobal "a" [] none).res = GoRes.ok () ∧
    Collect c6db (prepareLevel c6db NewGlobal "a" [] none).st "a" =
      { log := [pfsQuery []], res := GoRes.ok [] } :=
  ⟨(c6_empty_metrics c6db NewGlobal "a" "You have an error in your SQL syntax"
      (by decide) (by decide)).1,
   (c6_empty_metrics c6db NewGlobal "a" "You have an error in your SQL syntax"
      (by decide) (by decide)).2.1,
   (c6_empty_metrics c6db NewGlobal "a" "You have an error in your SQL syntax"
      (by decide) (by decide)).2.2.2.2.2 c6db (by decide)⟩

/-- The Options map requests the auto source: no Options map at all, no
"source" key (a Go map read of a missing key yields ""), or an explicit
"auto". -/
def autoSourceOpt (o : Option (String → String)) : Prop :=
  o = none ∨ ∃ opts, o = some opts ∧ (opts OPT_SOURCE = "" ∨ opts OPT_SOURCE = "auto")

/-- C2: per-level source selection. Under an absent, empty or auto source
option, prepareLevel probes select, then pfs, then show, in that order (the
query log records each attempt) and adopts the first source whose
validation query against the connection succeeds; an explicit source is
the only one attempted, with no fallback even when its probe fails; any
other explicit value is rejected with an error before any query. -/
theorem c2_source_selection (db : DB) (g : Global) (l : String) (ms : List String)
    (hv : validateMetricNames ms = none) :
    (∀ o, autoSourceOpt o → ∀ rows mv,
      db (selectQuery ms) = Except.ok rows → selectRows ms rows = GoRes.ok mv →
      (prepareLevel db g l ms o).log = [selectQuery ms] ∧
      (prepareLevel db g l ms o).res = GoRes.ok () ∧
      (prepareLevel db g l ms o).st.sourceIn l = SOURCE_SELECT ∧
      (prepareLevel db g l ms o).st.queryIn l = selectQuery ms ∧
      (prepareLevel db g l ms o).st.workIn l = ms) ∧
    (∀ o, autoSourceOpt o → ∀ es rows,
      db (selectQuery ms) = Except.error es → db (pfsQuery ms) = Except.ok rows →
      (prepareLevel db g l ms o).log = [selectQuery ms, pfsQuery ms] ∧
      (prepareLevel db g l ms o).res = GoRes.ok () ∧
      (prepareLevel db g l ms o).st.sourceIn l = SOURCE_PFS ∧
      (prepareLevel db g l ms o).st.queryIn l = pfsQuery ms ∧
      (prepareLevel db g l ms o).st.workIn l = ms) ∧
    (∀ o, autoSourceOpt o → ∀ es ep rows,
      db (selectQuery ms) = Except.error es → db (pfsQuery ms) = Except.error ep →
      db (showQuery ms) = Except.ok rows →
      (prepareLevel db g l ms o).log = [selectQuery ms, pfsQuery ms, showQuery ms] ∧
      (prepareLevel db g l ms o).res = GoRes.ok () ∧
      (prepareLevel db g l ms o).st.sourceIn l = SOURCE_SHOW ∧
      (prepareLevel db g l ms o).st.queryIn l = showQuery ms ∧
      (prepareLevel db g l ms o).st.workIn l = ms) ∧
    (∀ o, autoSourceOpt o → ∀ es ep eh,
      db (selectQuery ms) = Except.error es → db (pfsQuery ms) = Except.error ep →
      db (showQuery ms) = Except.error eh →
      (prepareLevel db g l ms o).log = [selectQuery ms, pfsQuery ms, showQuery ms] ∧
      (prepareLevel db g l ms o).res =
        GoRes.err ("auto source failed, last error: " ++ eh)) ∧
    (∀ opts, opts OPT_SOURCE = SOURCE_SELECT →
      (prepareLevel db g l ms (some opts)).log = [selectQuery ms] ∧
      (prepareLevel db g l ms (some opts)).st.sourceIn l = SOURCE_SELECT ∧
      (prepareLevel db g l ms (some opts)).st.queryIn l = selectQuery ms) ∧
    (∀ opts, opts OPT_SOURCE = SOURCE_PFS →
      (prepareLevel db g l ms (some opts)).log = [pfsQuery ms] ∧
      (prepareLevel db g l ms (some opts)).st.sourceIn l = SOURCE_PFS ∧
      (prepareLevel db g l ms (some opts)).st.queryIn l = pfsQuery ms ∧
      (∀ rows, db (pfsQuery ms) = Except.ok rows →
        (prepareLevel db g l ms (some opts)).res = GoRes.ok ()) ∧
      (∀ ep, db (pfsQuery ms) = Except.error ep →
        (prepareLevel db g l ms (some opts)).res = GoRes.err ep)) ∧
    (∀ opts, opts OPT_SOURCE = SOURCE_SHOW →
      (prepareLevel db g l ms (some opts)).log = [showQuery ms] ∧
      (prepareLevel db g l ms (some opts)).st.sourceIn l = SOURCE_SHOW ∧
      (prepareLevel db g l ms (some opts)).st.queryIn l = showQuery ms) ∧
    (∀ opts, opts OPT_SOURCE ≠ "" → opts OPT_SOURCE ≠ "auto" →
      opts OPT_SOURCE ≠ SOURCE_SELECT → opts OPT_SOURCE ≠ SOURCE_PFS →
      opts OPT_SOURCE ≠ SOURCE_SHOW →
      (prepareLevel db g l ms (some opts)).log = [] ∧
      (prepareLevel db g l ms (some opts)).res =
        GoRes.err ("invalid source: " ++ opts OPT_SOURCE ++
          "; valid values: auto, select, pfs, show")) := by
  refine ⟨?_, ?_, ?_, ?_, ?_, ?_, ?_, ?_⟩
  · intro o ha rows mv hsel hrows
    rcases ha with rfl | ⟨opts, rfl, hsrc | hsrc⟩ <;>
      refine ⟨?_, ?_, ?_, ?_, ?_⟩ <;>
      simp_all [prepareLevel, hv, prepareSELECT, collectSELECT, upd, GoRes.ignore]
  · intro o ha es rows hsel hpfs
    rcases ha with rfl | ⟨opts, rfl, hsrc | hsrc⟩ <;>
      refine ⟨?_, ?_, ?_, ?_, ?_⟩ <;>
      simp_all [prepareLevel, hv, prepareSELECT, preparePFS, collectSELECT,
        collectPFS, collectSHOWorPFS, upd, GoRes.ignore]
  · intro o ha es ep rows hsel hpfs hshow
    rcases ha with rfl | ⟨opts, rfl, hsrc | hsrc⟩ <;>
      refine ⟨?_, ?_, ?_, ?_, ?_⟩ <;>
      simp_all [prepareLevel, hv, prepareSELECT, preparePFS, prepareSHOW,
        collectSELECT, collectPFS, collectSHOWorPFS, upd, GoRes.ignore]
  · intro o ha es ep eh hsel hpfs hshow
    rcases ha with rfl | ⟨opts, rfl, hsrc | hsrc⟩ <;>
      refine ⟨?_, ?_⟩ <;>
      simp_all [prepareLevel, hv, prepareSELECT, preparePFS, prepareSHOW,
        collectSELECT, collectPFS, collectSHOWorPFS, upd, GoRes.ignore]
  · intro opts hsrc
    refine ⟨?_, ?_, ?_⟩ <;>
      simp_all [prepareLevel, hv, prepareSELECT, collectSELECT, upd, GoRes.ignore,
        SOURCE_SELECT, SOURCE_PFS, SOURCE_SHOW] <;>
      try (split <;> rfl)
  · intro opts hsrc
    refine ⟨?_, ?_, ?_, ?_, ?_⟩
    · simp_all [prepareLevel, hv, preparePFS, collectPFS, collectSHOWorPFS,
        upd, GoRes.ignore, SOURCE_SELECT, SOURCE_PFS, SOURCE_SHOW] <;>
      try (split <;> rfl)
    · simp_all [prepareLevel, hv, preparePFS, collectPFS, collectSHOWorPFS,
        upd, GoRes.ignore, SOURCE_SELECT, SOURCE_PFS, SOURCE_SHOW]
    · simp_all [prepareLevel, hv, preparePFS, collectPFS, collectSHOWorPFS,
        upd, GoRes.ignore, SOURCE_SELECT, SOURCE_PFS, SOURCE_SHOW]
    · intro rows hrows
      simp_all [prepareLevel, hv, preparePFS, collectPFS, collectSHOWorPFS,
        upd, GoRes.ignore, SOURCE_SELECT, SOURCE_PFS, SOURCE_SHOW]
    · intro ep hep
      simp_all [prepareLevel, hv, preparePFS, collectPFS, collectSHOWorPFS,
        upd, GoRes.ignore, SOURCE_SELECT, SOURCE_PFS, SOURCE_SHOW]
  · intro opts hsrc
    refine ⟨?_, ?_, ?_⟩ <;>
      simp_all [prepareLevel, hv, prepareSHOW, collectPFS, collectSHOWorPFS,
        upd, GoRes.ignore, SOURCE_SELECT, SOURCE_PFS, SOURCE_SHOW] <;>
      try (split <;> rfl)
  · intro opts h0 h1 h2 h3 h4
    refine ⟨?_, ?_⟩ <;>
      simp_all [prepareLevel, hv, SOURCE_SELECT, SOURCE_PFS, SOURCE_SHOW, upd]

/-- C2 witness database: the select probe is denied, performance_schema
answers (the spec's auto-fallback scenario). -/
def c2db : DB := fun q =>
  if q = pfsQuery ["max_connections"] then Except.ok [["max_connections", "151"]]
  else Except.error "denied"

/-- C2 witness: auto mode probes select first and adopts pfs after the
failed select probe (the query log shows the order), and an unknown
explicit source is rejected. -/
theorem c2_source_selection_witness :
    (prepareLevel c2db NewGlobal "kpi" ["max_connections"] none).log =
      [selectQuery ["max_connections"], pfsQuery ["max_connections"]] ∧
    (prepareLevel c2db NewGlobal "kpi" ["max_connections"] none).res = GoRes.ok () ∧
    (prepareLevel c2db NewGlobal "kpi" ["max_connections"] none).st.sourceIn "kpi" =
      SOURCE_PFS ∧
    (prepareLevel c2db NewGlobal "kpi" ["max_connections"]
        (some (fun _ => "tcp"))).res =
      GoRes.err ("invalid source: " ++ "tcp" ++ "; valid values: auto, select, pfs, show") :=
  ⟨((c2_source_selection c2db NewGlobal "kpi" ["max_connections"] (by decide)).2.1
      none (Or.inl rfl) "denied" [["max_connections", "151"]] (by decide) (by decide)).1,
   ((c2_source_selection c2db NewGlobal "kpi" ["max_connections"] (by decide)).2.1
      none (Or.inl rfl) "denied" [["max_connections", "151"]] (by decide) (by decide)).2.1,
   ((c2_source_selection c2db NewGlobal "kpi" ["max_connections"] (by decide)).2.1
      none (Or.inl rfl) "denied" [["max_connections", "151"]] (by decide) (by decide)).2.2.1,
   ((c2_source_selection c2db NewGlobal "kpi" ["max_connections"] (by decide)).2.2.2.2.2.2.2
      (fun _ => "tcp") (by decide) (by decide) (by decide) (by decide) (by decide)).2⟩

/-- C1 counterexample pre-state: level "a" still carries per-level state
prepared under a previous plan (select source, query and metric list). -/
def c1g : Global :=
  { workIn := fun l => if l = "a" then ["max_connections"] else []
    queryIn := fun l => if l = "a" then selectQuery ["max_connections"] else ""
    sourceIn := fun l => if l = "a" then SOURCE_SELECT else "" }

/-- C1 counterexample plan: level "a" now has an invalid metric name, so
preparing it fails at validation before touching the database. -/
def c1plan : Plan :=
  ⟨[("a", ⟨fun d => if d = "var.global" then some ⟨["bad name"], none⟩ else none⟩)]⟩

/-- C1 counterexample: Prepare fails with the validation error, yet the
state observable by future Collects is changed: prepareLevel reset the
failing level's maps first, so the previously prepared source tag, query
and metric list of level "a" are wiped rather than left unchanged. -/
theorem c1_counterexample :
    (Prepare (fun _ => Except.error "unused") c1g c1plan).res =
      GoRes.err "bad name metric isn't a valid metric name" ∧
    c1g.sourceIn "a" = SOURCE_SELECT ∧
    (Prepare (fun _ => Except.error "unused") c1g c1plan).st.sourceIn "a" = "" ∧
    (Prepare (fun _ => Except.error "unused") c1g c1plan).st.sourceIn "a" ≠
      c1g.sourceIn "a" ∧
    (Prepare (fun _ => Except.error "unused") c1g c1plan).st.workIn "a" ≠
      c1g.workIn "a" :=
  ⟨by decide, by decide, by decide, by decide, by decide⟩

/-- C1 amended: Prepare is not all-or-nothing per plan. If some level fails
to prepare, Prepare returns that first error and stops: the plan's levels
decompose into a prefix that prepared successfully (whose var.global
levels, under distinct level names, keep their newly prepared source
tags), the failing level, whose prepareLevel call produced the returned
error and the final state (its own per-level state reset and possibly
overwritten), and untouched levels after it — per-level state at every
level name other than the prefix's and the failing one is unchanged from
before the call. -/
theorem c1_prepare_partial_state (db : DB) (g : Global) (plan : Plan) (e : String)
    (hnd : (plan.levels.map Prod.fst).Nodup)
    (hfail : (Prepare db g plan).res = GoRes.err e) :
    ∃ pre n lv dom post l1,
      plan.levels = pre ++ (n, lv) :: post ∧
      lv.collect "var.global" = some dom ∧
      (prepareLevels db g pre).res = GoRes.ok () ∧
      prepareLevel db (prepareLevels db g pre).st n dom.metrics dom.options =
        { log := l1, st := (Prepare db g plan).st, res := GoRes.err e } ∧
      (Prepare db g plan).log = (prepareLevels db g pre).log ++ l1 ∧
      (∀ x, (∀ p ∈ pre, x ≠ p.1) → x ≠ n →
        (Prepare db g plan).st.workIn x = g.workIn x ∧
        (Prepare db g plan).st.queryIn x = g.queryIn x ∧
        (Prepare db g plan).st.sourceIn x = g.sourceIn x) ∧
      (∀ p ∈ pre, ∀ dm, p.2.collect "var.global" = some dm →
        (Prepare db g plan).st.sourceIn p.1 = SOURCE_SELECT ∨
        (Prepare db g plan).st.sourceIn p.1 = SOURCE_PFS ∨
        (Prepare db g plan).st.sourceIn p.1 = SOURCE_SHOW) := by
  unfold Prepare at hfail ⊢
  obtain ⟨pre, n, lv, dom, post, l1, hdec, hdom, hpre, hlev, hlog⟩ :=
    prepareLevels_err_decomp db plan.levels g e hfail
  have hstep : (prepareLevel db (prepareLevels db g pre).st n dom.metrics dom.options).st
      = (prepareLevels db g plan.levels).st := by rw [hlev]
  refine ⟨pre, n, lv, dom, post, l1, hdec, hdom, hpre, hlev, hlog, ?_, ?_⟩
  · intro x hxpre hxn
    have h1 := prepareLevels_frame db pre g x hxpre
    have h2 := prepareLevel_frame db (prepareLevels db g pre).st n
      dom.metrics dom.options x hxn
    rw [hstep] at h2
    exact ⟨h2.1.trans h1.1, h2.2.1.trans h1.2.1, h2.2.2.trans h1.2.2⟩
  · intro p hp dm hdm
    rw [hdec, List.map_append, List.map_cons] at hnd
    have hsplit := List.nodup_append.mp hnd
    have hpn : p.1 ≠ n := by
      intro hcontra
      exact hsplit.2.2 (List.mem_map_of_mem Prod.fst hp)
        (by rw [hcontra]; exact List.mem_cons_self n _)
    have hsrc := prepareLevels_ok_sourceIn db pre g hsplit.1 hpre p.1 p.2
      (by simpa using hp) dm hdm
    have h2 := prepareLevel_frame db (prepareLevels db g pre).st n
      dom.metrics dom.options p.1 hpn
    rw [hstep] at h2
    rcases hsrc with h | h | h
    · exact Or.inl (h2.2.2.trans h)
    · exact Or.inr (Or.inl (h2.2.2.trans h))
    · exact Or.inr (Or.inr (h2.2.2.trans h))

/-- C1 amended witness database: answers the one-metric select probe of the
first level. -/
def c1wdb : DB := fun q =>
  if q = selectQuery ["max_connections"] then Except.ok [["151"]]
  else Except.error "denied"

/-- C1 amended witness plan: level "a" prepares fine, level "b" fails
validation. -/
def c1wplan : Plan :=
  ⟨[("a", ⟨fun d => if d = "var.global" then some ⟨["max_connections"], none⟩ else none⟩),
    ("b", ⟨fun d => if d = "var.global" then some ⟨["bad name"], none⟩ else none⟩)]⟩

/-- C1 amended witness: the decomposition at a concrete two-level plan
whose second level fails validation. -/
theorem c1_prepare_partial_state_witness :
    ∃ pre n lv dom post l1,
      c1wplan.levels = pre ++ (n, lv) :: post ∧
      lv.collect "var.global" = some dom ∧
      (prepareLevels c1wdb NewGlobal pre).res = GoRes.ok () ∧
      prepareLevel c1wdb (prepareLevels c1wdb NewGlobal pre).st n
          dom.metrics dom.options =
        { log := l1, st := (Prepare c1wdb NewGlobal c1wplan).st
          res := GoRes.err "bad name metric isn't a valid metric name" } ∧
      (Prepare c1wdb NewGlobal c1wplan).log =
        (prepareLevels c1wdb NewGlobal pre).log ++ l1 ∧
      (∀ x, (∀ p ∈ pre, x ≠ p.1) → x ≠ n →
        (Prepare c1wdb NewGlobal c1wplan).st.workIn x = NewGlobal.workIn x ∧
        (Prepare c1wdb NewGlobal c1wplan).st.queryIn x = NewGlobal.queryIn x ∧
        (Prepare c1wdb NewGlobal c1wplan).st.sourceIn x = NewGlobal.sourceIn x) ∧
      (∀ p ∈ pre, ∀ dm, p.2.collect "var.global" = some dm →
        (Prepare c1wdb NewGlobal c1wplan).st.sourceIn p.1 = SOURCE_SELECT ∨
        (Prepare c1wdb NewGlobal c1wplan).st.sourceIn p.1 = SOURCE_PFS ∨
        (Prepare c1wdb NewGlobal c1wplan).st.sourceIn p.1 = SOURCE_SHOW) :=
  c1_prepare_partial_state c1wdb NewGlobal c1wplan
    "bad name metric isn't a valid metric name" (by decide) (by decide)
